import Mathlib

set_option maxRecDepth 1000000

/-!
# Verification of the LawSchool retrieval-augmented answering pipeline

Shallow embedding of `src/streamlit_app.py` and `src/prebuild.py`.
The module `RagFullPipeline` (EmbeddingManager, VectorStore, RagRetriever,
`rag_advanced`, `initialize_llm`) is imported by both files but is not part
of the repository sources; where a claim depends on it, the corresponding
definition is modelled from the spec and marked as such in its doc comment.

Numeric scores use `ℚ` (the Python code uses floats; every constant that
matters, such as the 0.8 fallback confidence, is an exact decimal).
Fallible Python calls are embedded as `Except String` values supplied as
parameters; `try/except` blocks become matches on those values.
-/

namespace LawRag

/-- Modelled from the spec (§3): a `DocumentChunk` record as stored by the
absent `VectorStore` of `RagFullPipeline`: id, text, source name, optional
page and a fixed-dimension embedding vector. -/
structure DocumentChunk where
  id : String
  text : String
  source_name : String
  page : Option Nat
  embedding : List ℚ
deriving DecidableEq, Repr

/-- Modelled from the spec (§2, §4.2): the persisted collection of the absent
`VectorStore` class, as an insertion-ordered list of chunks.
`collection.count()` is the length of this list. -/
structure VectorStore where
  chunks : List DocumentChunk
deriving DecidableEq, Repr

/-- `vectorstore.collection.count()` in the Python callers. -/
def VectorStore.count (vs : VectorStore) : Nat :=
  vs.chunks.length

/-- Modelled from the spec (§2, §4.1): the absent `EmbeddingManager`; its
model is a function from text to a fixed-dimension vector. -/
structure EmbeddingManager where
  model : String → List ℚ

/-- Modelled from the spec (§4.1): `EmbeddingManager.embed`. -/
def EmbeddingManager.embed (em : EmbeddingManager) (text : String) : List ℚ :=
  em.model text

/-- Rational multiplication written through `mkRat` so that concrete
instances reduce inside the kernel; provably equal to `· * ·`. -/
def ratMul (a b : ℚ) : ℚ := mkRat (a.num * b.num) (a.den * b.den)

/-- Rational addition written through `mkRat` so that concrete instances
reduce inside the kernel; provably equal to `· + ·`. -/
def ratAdd (a b : ℚ) : ℚ := mkRat (a.num * b.den + b.num * a.den) (a.den * b.den)

theorem ratMul_eq (a b : ℚ) : ratMul a b = a * b := by
  rw [ratMul, Rat.mkRat_eq_div]
  push_cast
  rw [← div_mul_div_comm, Rat.num_div_den, Rat.num_div_den]

theorem ratAdd_eq (a b : ℚ) : ratAdd a b = a + b := by
  rw [ratAdd, Rat.mkRat_eq_div]
  conv_rhs => rw [← Rat.num_div_den a, ← Rat.num_div_den b]
  have ha : (a.den : ℚ) ≠ 0 := Nat.cast_ne_zero.mpr a.den_nz
  have hb : (b.den : ℚ) ≠ 0 := Nat.cast_ne_zero.mpr b.den_nz
  push_cast
  field_simp

/-- Modelled from the spec (§4.2): the similarity measure, "cosine or
inner-product, chosen once and fixed" — fixed here as the inner product of
the two vectors. -/
def innerProduct (u v : List ℚ) : ℚ :=
  (List.zipWith ratMul u v).foldr ratAdd 0

/-- `innerProduct` is the ordinary inner product. -/
theorem innerProduct_eq (u v : List ℚ) :
    innerProduct u v = (List.zipWith (· * ·) u v).sum := by
  rw [innerProduct]
  induction u generalizing v with
  | nil => simp
  | cons a u ih =>
    cases v with
    | nil => simp
    | cons b v => simp [ih, ratMul_eq, ratAdd_eq]

/-- Descending-score order on scored chunks, ties broken stably
(earlier-inserted wins, spec §4.2). -/
def scoreGE (a b : DocumentChunk × ℚ) : Prop :=
  b.2 ≤ a.2

instance : DecidableRel scoreGE :=
  fun a b => inferInstanceAs (Decidable (b.2 ≤ a.2))

instance : IsTotal (DocumentChunk × ℚ) scoreGE :=
  ⟨fun a b => (le_total b.2 a.2).imp id id⟩

instance : IsTrans (DocumentChunk × ℚ) scoreGE :=
  ⟨fun _ _ _ h1 h2 => le_trans h2 h1⟩

/-- Modelled from the spec (§4.2): `VectorStore.search(query_vector, k)` —
score every chunk, sort descending by score with insertion-order tie-break
(stable insertion sort), return at most `k` results. -/
def VectorStore.search (vs : VectorStore) (qv : List ℚ) (k : Nat) :
    List (DocumentChunk × ℚ) :=
  (List.insertionSort scoreGE
    (vs.chunks.map (fun c => (c, innerProduct qv c.embedding)))).take k

/-- A scored source as rendered by the app (`source['source']`,
`source['score']`, `source['preview']`, `source['page']` in
`streamlit_app.py`). -/
structure ScoredSource where
  source : String
  page : Option Nat
  preview : String
  score : ℚ
deriving DecidableEq, Repr

/-- Modelled from the spec (§9): the configured preview truncation length. -/
def previewLen : Nat := 200

/-- Modelled from the spec (§2, §4.3): the absent `RagRetriever`, composing
the vector store and the embedding manager. -/
structure RagRetriever where
  vectorstore : VectorStore
  embedding_manager : EmbeddingManager

/-- Modelled from the spec (§4.3): embed the query, search the store,
filter out results scoring below `min_score`, and project the survivors to
scored sources with truncated previews, preserving order. -/
def RagRetriever.retrieve (rt : RagRetriever) (query : String)
    (top_k : Nat) (min_score : ℚ) : List ScoredSource :=
  let qv := rt.embedding_manager.embed query
  let hits := rt.vectorstore.search qv top_k
  (hits.filter (fun h => decide (min_score ≤ h.2))).map (fun h =>
    { source := h.1.source_name
      page := h.1.page
      preview := h.1.text.take previewLen
      score := h.2 })

/-- The hosted language model handle returned by the absent
`initialize_llm`; `invoke` may fail (remote call), and on success yields the
response content. -/
structure LLM where
  invoke : String → Except String String

/-- The generation-only confidence baseline: the literal `0.8` of the
fallback branch in `streamlit_app.py` (written with `mkRat` so it reduces
in the kernel; `genOnlyBaseline_eq` identifies it with `8/10`). -/
def genOnlyBaseline : ℚ := mkRat 8 10

theorem genOnlyBaseline_eq : genOnlyBaseline = 8 / 10 := by
  rw [genOnlyBaseline, Rat.mkRat_eq_div]
  norm_num

/-- Clamp to [0,1] (spec §4.5e: confidence "clamped to [0,1]"). -/
def clamp01 (x : ℚ) : ℚ := max 0 (min 1 x)

/-- Top score of a source list (0 if empty). -/
def topScore : List ScoredSource → ℚ
  | [] => 0
  | s :: _ => s.score

/-- Modelled from the spec (§4.5 step 3): the plain generation-only prompt
built from the query alone. -/
def plainPrompt (query : String) : String :=
  "Answer this legal question:\n\n" ++ query

/-- Modelled from the spec (§4.5 step 2b): the retrieval-augmented prompt
embedding the query plus the concatenated source previews, each prefixed by
its source identity. -/
def contextPrompt (query : String) (sources : List ScoredSource) : String :=
  "Answer using the provided legal sources where relevant.\n\nSources:\n" ++
    String.join (sources.map (fun s => s.source ++ ": " ++ s.preview ++ "\n")) ++
    "\nQuestion: " ++ query

/-- A query result as built by the app: answer text, scored sources,
confidence. -/
structure QueryResult where
  answer : String
  sources : List ScoredSource
  confidence : ℚ
deriving DecidableEq, Repr

/-- The outcome of one call of the absent `rag_advanced`: the result (or the
error the generation call raised) together with the prompt that was sent to
the model. -/
structure RagCall where
  result : Except String QueryResult
  prompt : String

/-- Modelled from the spec (§4.5, steps 2a–2e): retrieve; if no source
cleared `min_score`, fall back to the plain generation-only prompt and the
fixed baseline confidence; otherwise build the context prompt and set
`confidence = clamp01 (0.5 + 0.5 * top_score)`; generation failure
propagates to the caller. -/
def rag_advanced (query : String) (rt : RagRetriever) (llm : LLM)
    (top_k : Nat) (min_score : ℚ) : RagCall :=
  let sources := rt.retrieve query top_k min_score
  if sources = [] then
    { result := (llm.invoke (plainPrompt query)).map
        (fun ans => ⟨ans, [], genOnlyBaseline⟩)
      prompt := plainPrompt query }
  else
    { result := (llm.invoke (contextPrompt query sources)).map
        (fun ans =>
          ⟨ans, sources,
            clamp01 (ratAdd (mkRat 1 2) (ratMul (mkRat 1 2) (topScore sources)))⟩)
      prompt := contextPrompt query sources }

/-! ## The Streamlit application (`src/streamlit_app.py`) -/

/-- Python's `str.strip()` whitespace set (ASCII part). -/
def pythonIsSpace (c : Char) : Bool :=
  c = ' ' || c = '\t' || c = '\n' || c = '\r' || c = '\x0b' || c = '\x0c'

/-- Python's `query.strip()`: drop leading and trailing whitespace. -/
def pythonStrip (s : String) : String :=
  ⟨((s.data.dropWhile pythonIsSpace).reverse.dropWhile pythonIsSpace).reverse⟩

/-- `initialize_minimal_rag` (`streamlit_app.py` lines 45–61): import
`RagFullPipeline`, call `initialize_llm`, construct `EmbeddingManager`;
returns `(None, None, None)` when the LLM handle is falsy, and the whole
body is wrapped in `try/except` returning `(None, None, str(e))`.
The three fallible operations are passed in as `Except` values. -/
def initialize_minimal_rag (importRes : Except String Unit)
    (initLLM : Except String (Option LLM))
    (initEM : Except String EmbeddingManager) :
    Option LLM × Option EmbeddingManager × Option String :=
  match importRes with
  | .error e => (none, none, some e)
  | .ok _ =>
    match initLLM with
    | .error e => (none, none, some e)
    | .ok none => (none, none, none)
    | .ok (some llm) =>
      match initEM with
      | .error e => (none, none, some e)
      | .ok em => (some llm, some em, some "Components loaded")

/-- `load_vector_store_lazy` (`streamlit_app.py` lines 64–84): import
`RagFullPipeline`, return `(None, "No legal database available")` when the
persist directory is absent, otherwise open the persisted `VectorStore`;
any exception in the body yields `(None, "Database error: " ++ e)`. -/
def load_vector_store_lazy (importRes : Except String Unit)
    (dirExists : Bool) (openStore : Except String VectorStore) :
    Option VectorStore × String :=
  match importRes with
  | .error e => (none, "Database error: " ++ e)
  | .ok _ =>
    if !dirExists then
      (none, "No legal database available")
    else
      match openStore with
      | .error e => (none, "Database error: " ++ e)
      | .ok vs =>
        (some vs, "Ready with " ++ toString vs.count ++ " documents")

/-- The session state the sidebar establishes before any query is handled. -/
structure SessionState where
  rag_initialized : Bool
  llm : Option LLM
  retriever : Option RagRetriever

/-- Outcome of one top-to-bottom run of the sidebar block
(`streamlit_app.py` lines 88–112): either the block completes and leaves a
session state behind, or it raises an uncaught exception, aborting the
script run before the query handler is ever reached. -/
inductive SidebarOutcome
  | crashed (msg : String)
  | ran (st : SessionState)

/-- The sidebar initialization run (`streamlit_app.py` lines 88–112),
modelled faithfully: when initialization fails, no components are stored
and `rag_initialized` stays false; when it succeeds and
`load_vector_store_lazy` returns a store, line 107 evaluates the
module-level name `RagRetriever` — which is imported only inside
`load_vector_store_lazy` (line 67) and is undefined at module scope — so
the run raises an uncaught `NameError` and aborts with no retriever bound;
only when no store is returned does the block complete (AI-only mode). -/
def sidebar_run (initRes : Option LLM × Option EmbeddingManager × Option String)
    (loadRes : Option VectorStore × String) : SidebarOutcome :=
  match initRes with
  | (some llm, some _, _) =>
    match loadRes.1 with
    | some _ => .crashed "NameError: name RagRetriever is not defined"
    | none => .ran ⟨true, some llm, none⟩
  | _ => .ran ⟨false, none, none⟩

/-- The session-state contents after the sidebar block of
`streamlit_app.py` has executed as far as it gets: `retriever` is `none` on
every path, because the only assignment to it (line 107) raises `NameError`
while evaluating its right-hand side and so never binds (see
`sidebar_run`); on the successful-load path the query handler is moreover
never reached in that run, since the exception aborts the script. -/
def app_session (initRes : Option LLM × Option EmbeddingManager × Option String)
    (_loadRes : Option VectorStore × String) : SessionState :=
  match initRes with
  | (some llm, some _, _) =>
    { rag_initialized := true, llm := some llm, retriever := none }
  | _ =>
    { rag_initialized := false, llm := none, retriever := none }

/-- Which of the two answering paths the query handler dispatched to. -/
inductive AnswerMode
  | retrievalAugmented
  | generationOnly
deriving DecidableEq, Repr

/-- What the query button handler displays. -/
inductive HandlerOutcome
  | displayError (msg : String)
  | answered (r : QueryResult)
deriving DecidableEq, Repr

/-- Observable trace of one press of the query button: the outcome, the
path taken (none if rejected before dispatch), and the prompts sent to the
language model. -/
structure HandlerTrace where
  outcome : HandlerOutcome
  mode : Option AnswerMode
  prompts : List String
deriving DecidableEq, Repr

/-- The LLM-only fallback prompt built inline in the query handler
(`streamlit_app.py` lines 167–173). -/
def fallbackPrompt (query : String) : String :=
  "You are an expert legal scholar. Answer this legal question:\n\n" ++
    query ++
    "\n\nProvide a comprehensive legal analysis with relevant principles and examples."

/-- The query button handler (`streamlit_app.py` lines 145–196): reject a
blank query, reject when the system is not initialized, otherwise call
`rag_advanced` when a retriever is bound and the inline LLM-only fallback
(`sources = []`, `confidence = 0.8`) when not; any exception becomes the
`"Error processing query: ..."` message. -/
def handle_query (query : String) (st : SessionState)
    (top_k : Nat) (min_score : ℚ) : HandlerTrace :=
  if pythonStrip query = "" then
    ⟨.displayError "Please enter a legal question", none, []⟩
  else if !st.rag_initialized then
    ⟨.displayError "System not ready. Please check status.", none, []⟩
  else
    match st.retriever with
    | some rt =>
      match st.llm with
      | none =>
        ⟨.displayError "Error processing query: no llm in session state",
          some .retrievalAugmented, []⟩
      | some llm =>
        let call := rag_advanced query rt llm top_k min_score
        match call.result with
        | .ok res => ⟨.answered res, some .retrievalAugmented, [call.prompt]⟩
        | .error e =>
          ⟨.displayError ("Error processing query: " ++ e),
            some .retrievalAugmented, [call.prompt]⟩
    | none =>
      match st.llm with
      | none =>
        ⟨.displayError "Error processing query: no llm in session state",
          some .generationOnly, []⟩
      | some llm =>
        match llm.invoke (fallbackPrompt query) with
        | .ok content =>
          ⟨.answered ⟨content, [], mkRat 8 10⟩, some .generationOnly,
            [fallbackPrompt query]⟩
        | .error e =>
          ⟨.displayError ("Error processing query: " ++ e),
            some .generationOnly, [fallbackPrompt query]⟩

/-! ## The index-build driver (`src/prebuild.py`) -/

/-- The observable effect of one run of `prebuild.py`: the exit status of
the process and the lines it printed. -/
structure PrebuildOutcome where
  exitCode : Nat
  printed : List String
deriving DecidableEq, Repr

/-- `prebuild_vector_store` (`prebuild.py` lines 7–27): build the vector
store (constructor plus `collection.count()`, passed in as one `Except`
value since `VectorStore` build mode lives in the absent
`RagFullPipeline`), print count and elapsed wall time on success, and call
`sys.exit(1)` on any exception. Wall-clock readings are parameters. -/
def prebuild_vector_store (build : Except String VectorStore)
    (startTime endTime : ℚ) : PrebuildOutcome :=
  match build with
  | .ok vs =>
    { exitCode := 0
      printed :=
        ["Pre-building vector store...",
         "Vector store built successfully!",
         "Documents: " ++ toString vs.count,
         "Time taken: " ++ toString (endTime - startTime) ++ " seconds"] }
  | .error e =>
    { exitCode := 1
      printed :=
        ["Pre-building vector store...",
         "Error building vector store: " ++ e] }

/-! ## Concrete fixtures (used by witnesses and counterexamples) -/

/-- A generation client that always answers. -/
def demoLLM : LLM :=
  ⟨fun _ => .ok "Negligence requires duty, breach, causation, and damage."⟩

/-- A one-dimensional embedding model mapping every text to `[1]`, so a
chunk's similarity score is the single component of its stored embedding. -/
def demoEM : EmbeddingManager := ⟨fun _ => [1]⟩

/-- The spec's §8 scenario chunk, scoring 23/25 = 0.92 for any query under
`demoEM`. -/
def demoChunk : DocumentChunk :=
  { id := "c1"
    text := "Negligence requires duty, breach, causation, and damage."
    source_name := "torts.pdf"
    page := some 1
    embedding := [mkRat 23 25] }

/-- A store holding just `demoChunk`. -/
def demoStore : VectorStore := ⟨[demoChunk]⟩

/-- Retriever over `demoStore`. -/
def demoRetriever : RagRetriever := ⟨demoStore, demoEM⟩

/-- Initialized session with a populated store bound. -/
def demoSession : SessionState := ⟨true, some demoLLM, some demoRetriever⟩

/-- Initialized session with no retriever bound (store absent). -/
def noStoreSession : SessionState := ⟨true, some demoLLM, none⟩

/-- Initialized session whose bound store is present but empty. -/
def emptyStoreSession : SessionState := ⟨true, some demoLLM, some ⟨⟨[]⟩, demoEM⟩⟩

/-! ## Helper lemmas -/

/-- Retrieval over an empty collection returns no sources. -/
theorem retrieve_empty_store (rt : RagRetriever) (q : String) (k : Nat) (m : ℚ)
    (h : rt.vectorstore.chunks = []) : rt.retrieve q k m = [] := by
  simp [RagRetriever.retrieve, VectorStore.search, h, List.insertionSort]

/-- When retrieval yields nothing, `rag_advanced` uses the plain prompt and
the baseline confidence. -/
theorem rag_advanced_of_retrieve_nil (q : String) (rt : RagRetriever) (llm : LLM)
    (k : Nat) (m : ℚ) (h : rt.retrieve q k m = []) :
    rag_advanced q rt llm k m =
      ⟨(llm.invoke (plainPrompt q)).map (fun ans => ⟨ans, [], genOnlyBaseline⟩),
        plainPrompt q⟩ := by
  simp [rag_advanced, h]

/-- Inversion: an answered outcome came either from the inline LLM-only
fallback (no retriever bound) or from a successful `rag_advanced` call. -/
theorem handle_query_answered (q : String) (st : SessionState) (k : Nat) (m : ℚ)
    (r : QueryResult) (h : (handle_query q st k m).outcome = HandlerOutcome.answered r) :
    (∃ llm content, st.retriever = none ∧ st.llm = some llm ∧
        llm.invoke (fallbackPrompt q) = Except.ok content ∧
        r = ⟨content, [], mkRat 8 10⟩) ∨
    (∃ rt llm, st.retriever = some rt ∧ st.llm = some llm ∧
        (rag_advanced q rt llm k m).result = Except.ok r) := by
  simp only [handle_query] at h
  split at h
  · simp at h
  split at h
  · simp at h
  split at h
  · rename_i rt hrt
    split at h
    · simp at h
    rename_i llm hllm
    split at h
    · rename_i res hres
      simp at h
      exact Or.inr ⟨rt, llm, hrt, hllm, by rw [hres, h]⟩
    · simp at h
  · rename_i hrt
    split at h
    · simp at h
    rename_i llm hllm
    split at h
    · rename_i content hcontent
      simp at h
      exact Or.inl ⟨llm, content, hrt, hllm, hcontent, h.symm⟩
    · simp at h

/-- A successful `rag_advanced` result carries either the baseline
confidence (no surviving source) or a clamped score-derived confidence. -/
theorem rag_advanced_confidence (q : String) (rt : RagRetriever) (llm : LLM)
    (k : Nat) (m : ℚ) (r : QueryResult)
    (h : (rag_advanced q rt llm k m).result = Except.ok r) :
    r.confidence = genOnlyBaseline ∨ ∃ x, r.confidence = clamp01 x := by
  simp only [rag_advanced] at h
  split at h
  · cases hinv : (llm.invoke (plainPrompt q)) <;> rw [hinv] at h <;>
      simp [Except.map] at h
    exact Or.inl (by rw [← h])
  · cases hinv : (llm.invoke (contextPrompt q (rt.retrieve q k m))) <;>
      rw [hinv] at h <;> simp [Except.map] at h
    exact Or.inr ⟨_, by rw [← h]⟩

/-- `search` output is sorted by descending score (spec §4.2). -/
theorem search_sorted (vs : VectorStore) (qv : List ℚ) (k : Nat) :
    List.Pairwise scoreGE (vs.search qv k) :=
  List.Pairwise.sublist (List.take_sublist _ _)
    (List.sorted_insertionSort scoreGE _)

/-- Retrieval preserves the descending-score order of `search`. -/
theorem retrieve_sorted (rt : RagRetriever) (q : String) (k : Nat) (m : ℚ) :
    List.Pairwise (fun a b : ScoredSource => b.score ≤ a.score)
      (rt.retrieve q k m) := by
  unfold RagRetriever.retrieve
  rw [List.pairwise_map]
  exact List.Pairwise.sublist (List.filter_sublist _) (search_sorted _ _ _)

/-- Every retrieved source cleared the `min_score` bar. -/
theorem retrieve_above_threshold (rt : RagRetriever) (q : String) (k : Nat) (m : ℚ) :
    ∀ s ∈ rt.retrieve q k m, m ≤ s.score := by
  unfold RagRetriever.retrieve
  intro s hs
  rcases List.mem_map.mp hs with ⟨h, hh, rfl⟩
  have h2 := (List.mem_filter.mp hh).2
  simpa [decide_eq_true_eq] using h2

/-- When every chunk scores below the threshold, retrieval is empty. -/
theorem retrieve_nil_of_low_scores (rt : RagRetriever) (q : String) (k : Nat) (m : ℚ)
    (hlow : ∀ c ∈ rt.vectorstore.chunks,
      innerProduct (rt.embedding_manager.embed q) c.embedding < m) :
    rt.retrieve q k m = [] := by
  unfold RagRetriever.retrieve
  rw [List.map_eq_nil_iff, List.filter_eq_nil_iff]
  intro a ha
  have h1 : a ∈ List.insertionSort scoreGE
      (rt.vectorstore.chunks.map
        (fun c => (c, innerProduct (rt.embedding_manager.embed q) c.embedding))) :=
    List.mem_of_mem_take ha
  have h2 := ((List.perm_insertionSort scoreGE _).mem_iff).mp h1
  rcases List.mem_map.mp h2 with ⟨c, hc, rfl⟩
  simp only [decide_eq_true_eq]
  exact not_le.mpr (hlow c hc)

/-- An answered `rag_advanced` call returns exactly the retrieved sources
(the empty list on the fallback branch, where retrieval is empty too). -/
theorem rag_advanced_sources (q : String) (rt : RagRetriever) (llm : LLM)
    (k : Nat) (m : ℚ) (r : QueryResult)
    (h : (rag_advanced q rt llm k m).result = Except.ok r) :
    r.sources = rt.retrieve q k m := by
  simp only [rag_advanced] at h
  split at h
  · rename_i hnil
    cases hinv : llm.invoke (plainPrompt q) <;> rw [hinv] at h <;>
      simp [Except.map] at h
    rw [← h]
    exact hnil.symm
  · cases hinv : llm.invoke (contextPrompt q (rt.retrieve q k m)) <;>
      rw [hinv] at h <;> simp [Except.map] at h
    rw [← h]

theorem clamp01_nonneg (x : ℚ) : 0 ≤ clamp01 x := le_max_left 0 _

theorem clamp01_le_one (x : ℚ) : clamp01 x ≤ 1 :=
  max_le (by norm_num) (min_le_left 1 x)

/-! ## Claims -/

/-- C1: for every query answered when the vector store is empty or absent
(no retriever bound), the returned result has an empty sources sequence and
its confidence equals the fixed generation-only baseline 0.8. -/
theorem C1_empty_or_absent_store_baseline (query : String) (st : SessionState)
    (top_k : Nat) (min_score : ℚ) (r : QueryResult)
    (hstore : st.retriever = none ∨
      ∃ rt, st.retriever = some rt ∧ rt.vectorstore.chunks = [])
    (h : (handle_query query st top_k min_score).outcome = HandlerOutcome.answered r) :
    r.sources = [] ∧ r.confidence = 8/10 := by
  have hbase : mkRat 8 10 = (8 : ℚ)/10 := by rw [Rat.mkRat_eq_div]; norm_num
  rcases handle_query_answered query st top_k min_score r h with
    ⟨llm, content, _, _, _, hr⟩ | ⟨rt, llm, hrt, hllm, hres⟩
  · rw [hr]; exact ⟨rfl, hbase⟩
  · rcases hstore with hnone | ⟨rt', hrt', hchunks⟩
    · rw [hnone] at hrt; exact absurd hrt (by simp)
    · rw [hrt'] at hrt
      injection hrt with hrteq
      subst hrteq
      have hret : rt'.retrieve query top_k min_score = [] :=
        retrieve_empty_store rt' query top_k min_score hchunks
      rw [rag_advanced_of_retrieve_nil query rt' llm top_k min_score hret] at hres
      cases hinv : llm.invoke (plainPrompt query) <;> rw [hinv] at hres <;>
        simp [Except.map] at hres
      rw [← hres]
      exact ⟨rfl, by rw [← hbase]; rfl⟩

/-- The concrete result of the LLM-only fallback in the witness scenario. -/
def demoFallbackResult : QueryResult :=
  ⟨"Negligence requires duty, breach, causation, and damage.", [], mkRat 8 10⟩

/-- C1 witness: a concrete session with no retriever bound. -/
theorem C1_witness :
    (handle_query "What is negligence?" noStoreSession 3 (mkRat 3 10)).outcome =
      HandlerOutcome.answered demoFallbackResult ∧
    demoFallbackResult.sources = [] ∧ demoFallbackResult.confidence = 8/10 :=
  ⟨by decide,
    C1_empty_or_absent_store_baseline "What is negligence?" noStoreSession 3 (mkRat 3 10)
      demoFallbackResult (Or.inl rfl) (by decide)⟩

/-- C2: for every answered query, the confidence lies in [0,1], on both the
retrieval-augmented and the generation-only path. -/
theorem C2_confidence_in_unit_interval (query : String) (st : SessionState)
    (top_k : Nat) (min_score : ℚ) (r : QueryResult)
    (h : (handle_query query st top_k min_score).outcome = HandlerOutcome.answered r) :
    0 ≤ r.confidence ∧ r.confidence ≤ 1 := by
  have hbase : (0 : ℚ) ≤ mkRat 8 10 ∧ (mkRat 8 10 : ℚ) ≤ 1 := by
    rw [Rat.mkRat_eq_div]; norm_num
  rcases handle_query_answered query st top_k min_score r h with
    ⟨llm, content, _, _, _, hr⟩ | ⟨rt, llm, hrt, hllm, hres⟩
  · rw [hr]; exact hbase
  · rcases rag_advanced_confidence query rt llm top_k min_score r hres with
      hb | ⟨x, hx⟩
    · rw [hb, genOnlyBaseline]; exact hbase
    · rw [hx]; exact ⟨clamp01_nonneg x, clamp01_le_one x⟩

/-- The concrete retrieval-augmented result in the witness scenario:
one source scoring 0.92, confidence 0.96. -/
def demoRagResult : QueryResult :=
  ⟨"Negligence requires duty, breach, causation, and damage.",
    [⟨"torts.pdf", some 1,
      "Negligence requires duty, breach, causation, and damage.", mkRat 23 25⟩],
    mkRat 24 25⟩

/-- C2 witness: the populated-store scenario of spec §8. -/
theorem C2_witness :
    (handle_query "What is negligence?" demoSession 3 (mkRat 3 10)).outcome =
      HandlerOutcome.answered demoRagResult ∧
    0 ≤ demoRagResult.confidence ∧ demoRagResult.confidence ≤ 1 :=
  ⟨by decide,
    C2_confidence_in_unit_interval "What is negligence?" demoSession 3 (mkRat 3 10)
      demoRagResult (by decide)⟩

/-- C9: a query that is empty or all-whitespace is rejected with an error
message before any dispatch: no mode is selected, no prompt is sent to the
model, and no `QueryResult` is produced. -/
theorem C9_blank_query_rejected (query : String) (st : SessionState)
    (top_k : Nat) (min_score : ℚ) (h : pythonStrip query = "") :
    handle_query query st top_k min_score =
      ⟨HandlerOutcome.displayError "Please enter a legal question", none, []⟩ := by
  simp [handle_query, h]

/-- C9 witness: an all-whitespace query against a fully ready session. -/
theorem C9_witness :
    pythonStrip "  \n\t  " = "" ∧
    handle_query "  \n\t  " demoSession 3 (mkRat 3 10) =
      ⟨HandlerOutcome.displayError "Please enter a legal question", none, []⟩ :=
  ⟨by decide, C9_blank_query_rejected "  \n\t  " demoSession 3 (mkRat 3 10) (by decide)⟩

/-- C4: when load mode is requested and the persisted location is absent,
`load_vector_store_lazy` returns the recoverable `(None, message)` outcome,
no retriever is bound, and the query handler takes the generation-only
path — the condition is never fatal to the process. -/
theorem C4_store_not_found_degrades (openStore : Except String VectorStore)
    (llm : LLM) (em : EmbeddingManager) (msg : Option String)
    (query : String) (top_k : Nat) (min_score : ℚ)
    (hq : pythonStrip query ≠ "") :
    load_vector_store_lazy (Except.ok ()) false openStore =
      (none, "No legal database available") ∧
    (app_session (some llm, some em, msg)
        (load_vector_store_lazy (Except.ok ()) false openStore)).retriever = none ∧
    (handle_query query
        (app_session (some llm, some em, msg)
          (load_vector_store_lazy (Except.ok ()) false openStore))
        top_k min_score).mode = some AnswerMode.generationOnly := by
  have hst : app_session (some llm, some em, msg)
      (load_vector_store_lazy (Except.ok ()) false openStore) =
      ⟨true, some llm, none⟩ := rfl
  refine ⟨rfl, by rw [hst], ?_⟩
  rw [hst]
  unfold handle_query
  rw [if_neg hq]
  cases hinv : llm.invoke (fallbackPrompt query) <;> simp [hinv]

/-- C4 witness: a concrete absent-store run of the sidebar and handler. -/
theorem C4_witness :
    pythonStrip "What is negligence?" ≠ "" ∧
    load_vector_store_lazy (Except.ok ()) false (Except.ok demoStore) =
      (none, "No legal database available") ∧
    (app_session (some demoLLM, some demoEM, some "Components loaded")
        (load_vector_store_lazy (Except.ok ()) false (Except.ok demoStore))).retriever = none ∧
    (handle_query "What is negligence?"
        (app_session (some demoLLM, some demoEM, some "Components loaded")
          (load_vector_store_lazy (Except.ok ()) false (Except.ok demoStore)))
        3 (mkRat 3 10)).mode = some AnswerMode.generationOnly :=
  ⟨by decide,
    C4_store_not_found_degrades (Except.ok demoStore) demoLLM demoEM
      (some "Components loaded") "What is negligence?" 3 (mkRat 3 10) (by decide)⟩

/-- C5: the index-build driver exits with status 1 whenever building raises
any error, and on success exits normally and prints the chunk count and the
elapsed wall time. -/
theorem C5_prebuild_exit_and_report (build : Except String VectorStore)
    (startTime endTime : ℚ) :
    (∀ e, build = Except.error e →
      (prebuild_vector_store build startTime endTime).exitCode = 1) ∧
    (∀ vs, build = Except.ok vs →
      (prebuild_vector_store build startTime endTime).exitCode = 0 ∧
      ("Documents: " ++ toString vs.count) ∈
        (prebuild_vector_store build startTime endTime).printed ∧
      ("Time taken: " ++ toString (endTime - startTime) ++ " seconds") ∈
        (prebuild_vector_store build startTime endTime).printed) := by
  constructor
  · rintro e rfl; rfl
  · rintro vs rfl
    refine ⟨rfl, ?_, ?_⟩ <;> simp [prebuild_vector_store]

/-- C5 witness: a failing build exits 1; a successful build exits 0. -/
theorem C5_witness :
    (prebuild_vector_store (Except.error "embedding model unavailable") 0 1).exitCode = 1 ∧
    (prebuild_vector_store (Except.ok demoStore) 0 1).exitCode = 0 :=
  ⟨(C5_prebuild_exit_and_report (Except.error "embedding model unavailable") 0 1).1
      "embedding model unavailable" rfl,
    ((C5_prebuild_exit_and_report (Except.ok demoStore) 0 1).2 demoStore rfl).1⟩

/-- C6: for every answered query, the sources list is sorted in descending
order of score and every entry's score is at least the request's
`min_score`. -/
theorem C6_sources_sorted_and_above_threshold (query : String) (st : SessionState)
    (top_k : Nat) (min_score : ℚ) (r : QueryResult)
    (h : (handle_query query st top_k min_score).outcome = HandlerOutcome.answered r) :
    List.Pairwise (fun a b : ScoredSource => b.score ≤ a.score) r.sources ∧
    ∀ s ∈ r.sources, min_score ≤ s.score := by
  rcases handle_query_answered query st top_k min_score r h with
    ⟨llm, content, _, _, _, hr⟩ | ⟨rt, llm, hrt, hllm, hres⟩
  · rw [hr]; exact ⟨List.Pairwise.nil, by simp⟩
  · rw [rag_advanced_sources query rt llm top_k min_score r hres]
    exact ⟨retrieve_sorted rt query top_k min_score,
      retrieve_above_threshold rt query top_k min_score⟩

/-- C6 witness: the populated-store scenario returns one source scoring
0.92 ≥ 0.3. -/
theorem C6_witness :
    (handle_query "What is negligence?" demoSession 3 (mkRat 3 10)).outcome =
      HandlerOutcome.answered demoRagResult ∧
    List.Pairwise (fun a b : ScoredSource => b.score ≤ a.score) demoRagResult.sources ∧
    ∀ s ∈ demoRagResult.sources, mkRat 3 10 ≤ s.score :=
  ⟨by decide,
    C6_sources_sorted_and_above_threshold "What is negligence?" demoSession 3
      (mkRat 3 10) demoRagResult (by decide)⟩

/-- C7: when the store is populated but no chunk clears the `min_score`
threshold, the orchestrator falls back to the plain generation-only prompt
(no injected context) and still completes the request, answering with the
baseline confidence and no sources. -/
theorem C7_below_threshold_falls_back (query : String) (st : SessionState)
    (top_k : Nat) (min_score : ℚ) (rt : RagRetriever) (llm : LLM) (ans : String)
    (hq : pythonStrip query ≠ "")
    (hinit : st.rag_initialized = true)
    (hrt : st.retriever = some rt)
    (hllm : st.llm = some llm)
    (_hpop : rt.vectorstore.chunks ≠ [])
    (hlow : ∀ c ∈ rt.vectorstore.chunks,
      innerProduct (rt.embedding_manager.embed query) c.embedding < min_score)
    (hgen : llm.invoke (plainPrompt query) = Except.ok ans) :
    handle_query query st top_k min_score =
      ⟨HandlerOutcome.answered ⟨ans, [], genOnlyBaseline⟩,
        some AnswerMode.retrievalAugmented, [plainPrompt query]⟩ := by
  have hret := retrieve_nil_of_low_scores rt query top_k min_score hlow
  have hcall := rag_advanced_of_retrieve_nil query rt llm top_k min_score hret
  unfold handle_query
  rw [if_neg hq, hrt, hllm, hinit]
  simp [hcall, hgen, Except.map]

/-- C7 witness: `min_score = 0.99` against the populated demo store whose
only chunk scores 0.92. -/
theorem C7_witness :
    (∀ c ∈ demoRetriever.vectorstore.chunks,
      innerProduct (demoRetriever.embedding_manager.embed "What is negligence?")
        c.embedding < mkRat 99 100) ∧
    handle_query "What is negligence?" demoSession 3 (mkRat 99 100) =
      ⟨HandlerOutcome.answered
          ⟨"Negligence requires duty, breach, causation, and damage.", [],
            genOnlyBaseline⟩,
        some AnswerMode.retrievalAugmented,
        [plainPrompt "What is negligence?"]⟩ :=
  ⟨by decide,
    C7_below_threshold_falls_back "What is negligence?" demoSession 3 (mkRat 99 100)
      demoRetriever demoLLM "Negligence requires duty, breach, causation, and damage."
      (by decide) rfl rfl rfl (by decide) (by decide) rfl⟩

/-- C3: evaluation of the code at the failing input. With successful
initialization and a present, non-empty, loadable persisted store,
`load_vector_store_lazy` returns the store — and the sidebar run then
aborts with the uncaught `NameError` of `streamlit_app.py` line 107
(`RagRetriever` is imported only inside `load_vector_store_lazy`), so no
retriever is ever bound, while the claim and spec §4.5 step 1 require a
usable retriever to be bound and the retrieval-augmented path taken. -/
theorem C3_sidebar_crash_at_failing_input :
    demoStore.count = 1 ∧
    (load_vector_store_lazy (Except.ok ()) true (Except.ok demoStore)).1 =
      some demoStore ∧
    sidebar_run (some demoLLM, some demoEM, some "Components loaded")
        (load_vector_store_lazy (Except.ok ()) true (Except.ok demoStore)) =
      SidebarOutcome.crashed "NameError: name RagRetriever is not defined" ∧
    (app_session (some demoLLM, some demoEM, some "Components loaded")
        (load_vector_store_lazy (Except.ok ()) true (Except.ok demoStore))).retriever =
      none :=
  ⟨rfl, rfl, rfl, rfl⟩

/-- C10 counterexample: when `initialize_minimal_rag` fails, the app does
NOT degrade to generation-only mode — the handler rejects the query with
"System not ready" without dispatching to either answering path. -/
theorem C10_counterexample :
    initialize_minimal_rag (Except.error "No module named RagFullPipeline")
        (Except.ok (some demoLLM)) (Except.ok demoEM) =
      (none, none, some "No module named RagFullPipeline") ∧
    handle_query "What is negligence?"
        (app_session
          (initialize_minimal_rag (Except.error "No module named RagFullPipeline")
            (Except.ok (some demoLLM)) (Except.ok demoEM))
          (none, "Database error: No module named RagFullPipeline"))
        3 (mkRat 3 10) =
      ⟨HandlerOutcome.displayError "System not ready. Please check status.", none, []⟩ ∧
    ¬ (handle_query "What is negligence?"
        (app_session
          (initialize_minimal_rag (Except.error "No module named RagFullPipeline")
            (Except.ok (some demoLLM)) (Except.ok demoEM))
          (none, "Database error: No module named RagFullPipeline"))
        3 (mkRat 3 10)).mode = some AnswerMode.generationOnly :=
  ⟨rfl, by decide, by decide⟩

/-- C10 amended: `initialize_minimal_rag` and `load_vector_store_lazy`
never propagate an exception — every internal failure yields `None`
components plus a message (`None` message when the LLM handle is merely
falsy); a load failure after successful initialization degrades the app to
generation-only mode, while an initialization failure makes the handler
reject queries with "System not ready" — without terminating in either
case. -/
theorem C10_amended_no_propagation :
    (∀ e iL iE, initialize_minimal_rag (Except.error e) iL iE = (none, none, some e)) ∧
    (∀ e iE, initialize_minimal_rag (Except.ok ()) (Except.error e) iE =
      (none, none, some e)) ∧
    (∀ iE, initialize_minimal_rag (Except.ok ()) (Except.ok none) iE =
      (none, none, none)) ∧
    (∀ e llm, initialize_minimal_rag (Except.ok ()) (Except.ok (some llm))
        (Except.error e) = (none, none, some e)) ∧
    (∀ e dir os, load_vector_store_lazy (Except.error e) dir os =
      (none, "Database error: " ++ e)) ∧
    (∀ e, load_vector_store_lazy (Except.ok ()) true (Except.error e) =
      (none, "Database error: " ++ e)) ∧
    (∀ llm em msg lmsg query top_k min_score, pythonStrip query ≠ "" →
      (handle_query query (app_session (some llm, some em, msg) (none, lmsg))
        top_k min_score).mode = some AnswerMode.generationOnly) ∧
    (∀ res2 msg loadRes query top_k min_score, pythonStrip query ≠ "" →
      handle_query query (app_session (none, res2, msg) loadRes) top_k min_score =
        ⟨HandlerOutcome.displayError "System not ready. Please check status.", none, []⟩) := by
  refine ⟨fun e iL iE => rfl, fun e iE => rfl, fun iE => rfl, fun e llm => rfl,
    fun e dir os => rfl, fun e => rfl, ?_, ?_⟩
  · intro llm em msg lmsg query top_k min_score hq
    have hst : app_session (some llm, some em, msg) (none, lmsg) =
        ⟨true, some llm, none⟩ := rfl
    unfold handle_query
    rw [if_neg hq, hst]
    cases hinv : llm.invoke (fallbackPrompt query) <;> simp [hinv]
  · intro res2 msg loadRes query top_k min_score hq
    unfold handle_query
    rw [if_neg hq]
    simp [app_session]

/-- C10 amended witness: an import failure in initialization, a load
failure after a successful initialization, and the resulting handler
behaviors, all on concrete inputs. -/
theorem C10_amended_witness :
    initialize_minimal_rag (Except.error "boom") (Except.ok (some demoLLM))
        (Except.ok demoEM) = (none, none, some "boom") ∧
    (handle_query "What is negligence?"
        (app_session (some demoLLM, some demoEM, some "Components loaded")
          (none, "Database error: boom"))
        3 (mkRat 3 10)).mode = some AnswerMode.generationOnly ∧
    handle_query "What is negligence?" (app_session (none, none, some "boom") (none, "x"))
        3 (mkRat 3 10) =
      ⟨HandlerOutcome.displayError "System not ready. Please check status.", none, []⟩ :=
  ⟨C10_amended_no_propagation.1 "boom" (Except.ok (some demoLLM)) (Except.ok demoEM),
    C10_amended_no_propagation.2.2.2.2.2.2.1 demoLLM demoEM (some "Components loaded")
      "Database error: boom" "What is negligence?" 3 (mkRat 3 10) (by decide),
    C10_amended_no_propagation.2.2.2.2.2.2.2 none (some "boom") (none, "x")
      "What is negligence?" 3 (mkRat 3 10) (by decide)⟩

end LawRag
